import Mathlib

/-!
Verification of the storage bootstrap subsystem of the health building block
(`driven/storage/database.go`).

The Go code is shallowly embedded: documents are flat string-keyed records,
collections carry a document list plus an index list, and each
`apply*Checks` routine of `database.start` is translated into a pure
function threading the collection state and the first error, mirroring the
sequential `if err != nil { return err }` style of the source.  The
`collectionWrapper` operations (`AddIndex`, `Find`, `FindOne`, `InsertOne`,
`DeleteMany`) live in `collections.go`, which is not part of the sources
here; they are modelled from the specification of the Collection
Provisioner and Migration/Seed Runner.  `start` additionally records a
ghost trace of events (context creation, provisioning checks, handle
assembly, watch launch) so that ordering properties of the bootstrap can be
stated.
-/

set_option autoImplicit false

namespace HealthStorage

/-- A BSON document, modelled as a flat association list from field paths to
string values.  Only string-valued fields are ever consulted by the
bootstrap code (status flags, version labels, county names and ids). -/
abbrev Doc := List (String × String)

/-- Field lookup in a document: the first binding of the key, if any. -/
def Doc.get (d : Doc) (k : String) : Option String :=
  (d.find? (fun kv => kv.1 == k)).map (fun kv => kv.2)

/-- An equality filter, as used by every query in `database.go`:
a conjunction of (field, expected value) pairs. -/
abbrev Query := List (String × String)

/-- A document matches a filter when every filter field is present with the
expected value. -/
def matchesFilter (d : Doc) (f : Query) : Bool :=
  f.all (fun kv => Doc.get d kv.1 == some kv.2)

/-- An index specification: field key, direction (always 1 in the source)
and uniqueness, as passed to `AddIndex`. -/
structure IndexSpec where
  key : String
  dir : Int
  unique : Bool
deriving DecidableEq, Repr

/-- A collection: its documents and its provisioned indexes. -/
structure Coll where
  docs : List Doc
  idxs : List IndexSpec
deriving DecidableEq, Repr

/-- The empty (fresh) collection. -/
def Coll.empty : Coll := { docs := [], idxs := [] }

/-- Errors surfaced during bootstrap, mirroring the error taxonomy of the
spec: connection errors, provisioning errors (index conflict / uniqueness
violation), and seed errors (missing file, missing dependency document). -/
inductive DbError where
  | connectFailed
  | pingFailed
  | indexConflict (coll : String) (key : String)
  | uniqueViolation (coll : String)
  | fileNotFound (path : String)
  | noChampaignCounty
deriving DecidableEq, Repr

/-- All documents of a collection matching a filter, in collection order.
Modelled from the spec: `collectionWrapper.Find` (collections.go is not
among the sources) returns every document matching the filter. -/
def findDocs (c : Coll) (f : Query) : List Doc :=
  c.docs.filter (fun d => matchesFilter d f)

/-- Modelled from the spec: `collectionWrapper.FindOne` (collections.go is
not among the sources) yields the first matching document, or nothing when
the lookup has zero results. -/
def findOne (c : Coll) (f : Query) : Option Doc :=
  (findDocs c f).head?

/-- Whether some value of field `k` occurs in two documents, i.e. existing
data violates a unique constraint on `k`. -/
def dupOnKey (docs : List Doc) (k : String) : Bool :=
  let vs := docs.filterMap (fun d => Doc.get d k)
  vs.length != vs.dedup.length

/-- Modelled from the spec: `collectionWrapper.AddIndex` (collections.go is
not among the sources).  Per the Collection Provisioner contract, creating
an index is a no-op when an equivalent index already exists, a hard failure
when a conflicting index on the same key exists, and a hard failure when
existing data violates a newly declared unique constraint. -/
def addIndex (name : String) (c : Coll) (s : IndexSpec) : Except DbError Coll :=
  match c.idxs.find? (fun i => i.key == s.key) with
  | some i =>
    if i == s then Except.ok c
    else Except.error (DbError.indexConflict name s.key)
  | none =>
    if s.unique && dupOnKey c.docs s.key then Except.error (DbError.uniqueViolation name)
    else Except.ok { c with idxs := c.idxs ++ [s] }

/-- Whether inserting `d` would violate a declared unique index. -/
def violatesUnique (docs : List Doc) (i : IndexSpec) (d : Doc) : Bool :=
  i.unique &&
    (match Doc.get d i.key with
     | some v => docs.any (fun d0 => Doc.get d0 i.key == some v)
     | none => false)

/-- Modelled from the spec: `collectionWrapper.InsertOne` (collections.go is
not among the sources).  Appends the document; a uniqueness conflict with a
declared unique index is surfaced as an error, not swallowed. -/
def insertOne (name : String) (c : Coll) (d : Doc) : Except DbError Coll :=
  if c.idxs.any (fun i => violatesUnique c.docs i d) then
    Except.error (DbError.uniqueViolation name)
  else Except.ok { c with docs := c.docs ++ [d] }

/-- Modelled from the spec: `collectionWrapper.DeleteMany` (collections.go
is not among the sources).  Removes every matching document and reports the
count; deleting zero matches is success. -/
def deleteMany (c : Coll) (f : Query) : Nat × Coll :=
  let remaining := c.docs.filter (fun d => !matchesFilter d f)
  (c.docs.length - remaining.length, { c with docs := remaining })

/-!
## Change notifier (`database.onDataChanged`)

The change-feed payload is a dynamic `map[string]interface{}`.  Go values
of interface type are modelled by `GoVal`; an unchecked type assertion on
a value of the wrong shape is a runtime panic, recorded by
`NotifyOutcome.panicked`.
-/

/-- A dynamic Go value, as stored in a `map[string]interface{}`. -/
inductive GoVal where
  | vnull
  | vstr (s : String)
  | vint (n : Int)
  | vbool (b : Bool)
  | vmap (m : List (String × GoVal))

/-- A dynamic Go map. -/
abbrev GoMap := List (String × GoVal)

/-- Go map indexing: a missing key yields the zero value (nil interface),
identified here with an explicitly stored nil. -/
def mapGet (m : GoMap) (k : String) : Option GoVal :=
  (m.find? (fun kv => kv.1 == k)).map (fun kv => kv.2)

/-- Result of delivering one change event: either a type-assertion panic,
or normal completion together with the number of `OnConfigsChanged`
callback invocations performed. -/
inductive NotifyOutcome where
  | panicked
  | done (callbacks : Nat)
deriving DecidableEq, Repr

/-- `database.onDataChanged` (database.go:746).  The listener field is
modelled by a flag telling whether a non-nil listener is registered; the
change document is `none` when the Go map is nil.  The source asserts
`ns.(map[string]interface{})` without a shape check, so a present `ns`
value of any non-map shape panics. -/
def onDataChanged (listenerRegistered : Bool) (changeDoc : Option GoMap) : NotifyOutcome :=
  match changeDoc with
  | none => NotifyOutcome.done 0
  | some doc =>
    match mapGet doc "ns" with
    | none => NotifyOutcome.done 0
    | some GoVal.vnull => NotifyOutcome.done 0
    | some (GoVal.vmap nsMap) =>
      match mapGet nsMap "coll" with
      | some (GoVal.vstr s) =>
        if s == "configs" then
          if listenerRegistered then NotifyOutcome.done 1 else NotifyOutcome.done 0
        else NotifyOutcome.done 0
      | _ => NotifyOutcome.done 0
    | some _ => NotifyOutcome.panicked

/-- Whether a dynamic value is the string "configs", i.e. the Go comparison
`"configs" == coll` succeeds. -/
def collIsConfigs (v : Option GoVal) : Bool :=
  match v with
  | some (GoVal.vstr s) => s == "configs"
  | _ => false

/-- Whether a present `ns` value survives the source's unchecked map type
assertion (a map does; an explicit nil never reaches it). -/
def nsShapeSafe (v : GoVal) : Bool :=
  match v with
  | GoVal.vnull => true
  | GoVal.vmap _ => true
  | _ => false

/-- C2: for every change document delivered to `onDataChanged` with a
registered listener, an event whose namespace collection name equals
"configs" produces exactly one `OnConfigsChanged` callback invocation, and
an event whose collection name is any other value produces zero. -/
theorem onDataChanged_configs_dispatch (doc nsMap : GoMap)
    (hns : mapGet doc "ns" = some (GoVal.vmap nsMap)) :
    onDataChanged true (some doc)
      = NotifyOutcome.done (cond (collIsConfigs (mapGet nsMap "coll")) 1 0) := by
  simp only [onDataChanged, hns]
  rcases hc : mapGet nsMap "coll" with _ | v
  · simp [collIsConfigs, hc]
  · cases v with
    | vstr s =>
      by_cases hs : (s == "configs") = true
      · simp [collIsConfigs, hc, hs]
      · simp only [Bool.not_eq_true] at hs
        simp [collIsConfigs, hc, hs]
    | vnull => simp [collIsConfigs, hc]
    | vint n => simp [collIsConfigs, hc]
    | vbool b => simp [collIsConfigs, hc]
    | vmap m => simp [collIsConfigs, hc]

/-- Witness for C2: a configs change event produces exactly one callback,
and a change event for another collection produces zero. -/
theorem onDataChanged_configs_dispatch_witness :
    onDataChanged true (some [("ns", GoVal.vmap [("coll", GoVal.vstr "configs")])])
      = NotifyOutcome.done 1
    ∧ onDataChanged true (some [("ns", GoVal.vmap [("coll", GoVal.vstr "users")])])
      = NotifyOutcome.done 0 :=
  ⟨onDataChanged_configs_dispatch
      [("ns", GoVal.vmap [("coll", GoVal.vstr "configs")])]
      [("coll", GoVal.vstr "configs")] rfl,
   onDataChanged_configs_dispatch
      [("ns", GoVal.vmap [("coll", GoVal.vstr "users")])]
      [("coll", GoVal.vstr "users")] rfl⟩

/-- C9 counterexample: a change document whose `ns` field carries no
collection name because it is not map-shaped (here: a string) is not
dropped; the unchecked type assertion in the source panics. -/
theorem onDataChanged_nonmap_ns_panics :
    onDataChanged true (some [("ns", GoVal.vstr "boom")]) = NotifyOutcome.panicked := rfl

/-- C9 (amended): `onDataChanged` drops the event without invoking any
listener callback when the change document is nil, when its `ns` field is
missing or nil, and when the namespace is a map carrying no collection
name; but a present `ns` value of non-map, non-nil shape makes the
function fail (type-assertion panic) instead of dropping the event. -/
theorem onDataChanged_absent_policy (lp : Bool) :
    onDataChanged lp none = NotifyOutcome.done 0
    ∧ (∀ doc : GoMap, mapGet doc "ns" = none →
        onDataChanged lp (some doc) = NotifyOutcome.done 0)
    ∧ (∀ doc : GoMap, mapGet doc "ns" = some GoVal.vnull →
        onDataChanged lp (some doc) = NotifyOutcome.done 0)
    ∧ (∀ (doc nsMap : GoMap), mapGet doc "ns" = some (GoVal.vmap nsMap) →
        mapGet nsMap "coll" = none →
        onDataChanged lp (some doc) = NotifyOutcome.done 0)
    ∧ (∀ (doc : GoMap) (v : GoVal), mapGet doc "ns" = some v → nsShapeSafe v = false →
        onDataChanged lp (some doc) = NotifyOutcome.panicked) := by
  refine ⟨rfl, ?_, ?_, ?_, ?_⟩
  · intro doc h
    simp only [onDataChanged, h]
  · intro doc h
    simp only [onDataChanged, h]
  · intro doc nsMap h hc
    simp only [onDataChanged, h, hc]
  · intro doc v h hv
    simp only [onDataChanged, h]
    cases v with
    | vnull => simp [nsShapeSafe] at hv
    | vmap m => simp [nsShapeSafe] at hv
    | vstr s => rfl
    | vint n => rfl
    | vbool b => rfl

/-- Witness for C9 (amended): a missing `ns` field drops the event, a map
namespace without a collection name drops the event, and a string-shaped
`ns` panics. -/
theorem onDataChanged_absent_policy_witness :
    onDataChanged true (some [("fullDocument", GoVal.vnull)]) = NotifyOutcome.done 0
    ∧ onDataChanged true (some [("ns", GoVal.vmap [("db", GoVal.vstr "health")])])
      = NotifyOutcome.done 0
    ∧ onDataChanged true (some [("ns", GoVal.vint 3)]) = NotifyOutcome.panicked :=
  ⟨(onDataChanged_absent_policy true).2.1 [("fullDocument", GoVal.vnull)] rfl,
   (onDataChanged_absent_policy true).2.2.2.1
      [("ns", GoVal.vmap [("db", GoVal.vstr "health")])]
      [("db", GoVal.vstr "health")] rfl rfl,
   (onDataChanged_absent_policy true).2.2.2.2 [("ns", GoVal.vint 3)] (GoVal.vint 3) rfl rfl⟩

/-!
## Store state, external environment, and the per-collection checks

Each `apply*Checks` routine of database.go is translated as a function on
the whole `Store` that updates exactly the collection(s) it touches and
returns the first error, mirroring the Go sequential error propagation.
The per-collection core works on a single `Coll`; helper combinators
`thenIdx` / `thenDo` chain the sequential `AddIndex` / seed / prune steps
exactly in source order, short-circuiting on the first error while keeping
the collection state reached so far (server-side effects of completed
steps persist even when a later step fails).
-/

/-- The full document-store state: one `Coll` per collection name touched
by `database.start` (database.go:69), in declaration order. -/
structure Store where
  configs : Coll
  users : Coll
  providers : Coll
  locations : Coll
  ctests : Coll
  manualtests : Coll
  emanualtests : Coll
  resources : Coll
  faq : Coll
  news : Coll
  status : Coll
  estatus : Coll
  history : Coll
  ehistory : Coll
  counties : Coll
  testtypes : Coll
  rules : Coll
  symptomgroups : Coll
  symptomrules : Coll
  symptoms : Coll
  crules : Coll
  traceexposures : Coll
  accessrules : Coll
  uinoverrides : Coll
deriving DecidableEq, Repr

/-- A completely fresh store: every collection empty, no indexes. -/
def emptyStore : Store :=
  { configs := Coll.empty, users := Coll.empty, providers := Coll.empty
  , locations := Coll.empty, ctests := Coll.empty, manualtests := Coll.empty
  , emanualtests := Coll.empty, resources := Coll.empty, faq := Coll.empty
  , news := Coll.empty, status := Coll.empty, estatus := Coll.empty
  , history := Coll.empty, ehistory := Coll.empty, counties := Coll.empty
  , testtypes := Coll.empty, rules := Coll.empty, symptomgroups := Coll.empty
  , symptomrules := Coll.empty, symptoms := Coll.empty, crules := Coll.empty
  , traceexposures := Coll.empty, accessrules := Coll.empty
  , uinoverrides := Coll.empty }

/-- External world of one bootstrap run: whether connect / ping fail, the
readable seed files, and the uuid values produced by `uuid.NewUUID`. -/
structure Env where
  connectErr : Bool
  pingErr : Bool
  files : List (String × String)
  uuid1 : String
  uuid2 : String
deriving DecidableEq, Repr

/-- `ioutil.ReadFile`, over the environment's file table. -/
def readFile (env : Env) (p : String) : Option String :=
  (env.files.find? (fun kv => kv.1 == p)).map (fun kv => kv.2)

/-- Path of the symptoms seed file (database.go:625). -/
def symptomsSeedFile : String := "./driven/storage/symptoms_2.6.json"

/-- Path of the county rules seed file (database.go:678). -/
def rulesSeedFile : String := "./driven/storage/rules_2.6.json"

/-- One step of a per-collection routine: the error of the first failing
operation, together with the collection state reached so far. -/
abbrev CollStep := Except DbError Unit × Coll

/-- Chain an `AddIndex` call after the previous steps, in Go style: skip if
an earlier step already failed, otherwise run `AddIndex` and keep its
error, if any. -/
def thenIdx (name : String) (s : IndexSpec) (r : CollStep) : CollStep :=
  match r.1 with
  | Except.error _ => r
  | Except.ok _ =>
    match addIndex name r.2 s with
    | Except.ok c2 => (Except.ok (), c2)
    | Except.error e => (Except.error e, r.2)

/-- Chain an arbitrary collection operation after the previous steps,
skipping it if an earlier step already failed. -/
def thenDo (f : Coll → CollStep) (r : CollStep) : CollStep :=
  match r.1 with
  | Except.error _ => r
  | Except.ok _ => f r.2

/-- The verified-status filter of database.go:375. -/
def verifiedFilter : Query := [("status", "verified")]

/-- The seed-lookup filter for symptoms version 2.6 (database.go:616). -/
def symptoms26Filter : Query := [("app_version", "2.6")]

/-- The Champaign county lookup filter (database.go:658). -/
def champaignFilter : Query := [("name", "Champaign")]

/-- database.go:373-394: remove all verified manual tests.  First count the
matching documents; when there are any, `DeleteMany` them, otherwise do
nothing. -/
def pruneVerified (c : Coll) : CollStep :=
  let items := findDocs c verifiedFilter
  if items.length > 0 then
    let r := deleteMany c verifiedFilter
    (Except.ok (), r.2)
  else
    (Except.ok (), c)

/-- database.go:615-636: seed the symptoms collection for app version 2.6
when no document for that version exists.  Modelled from the spec where the
sources are missing: the inserted `model.Symptoms{AppVersion, Items}`
document is stored with fields `app_version` and `items`, so that it
matches the lookup filter used here. -/
def seedSymptoms (env : Env) (c : Coll) : CollStep :=
  let items := findDocs c symptoms26Filter
  if items.length ≤ 0 then
    match readFile env symptomsSeedFile with
    | none => (Except.error (DbError.fileNotFound symptomsSeedFile), c)
    | some data =>
      match insertOne "symptoms" c [("app_version", "2.6"), ("items", data)] with
      | Except.ok c2 => (Except.ok (), c2)
      | Except.error e => (Except.error e, c)
  else
    (Except.ok (), c)

/-- database.go:656-689: seed the county rules for version 2.6 and the
Champaign county.  The county id is resolved by a lookup in the counties
collection first; zero results is a fatal error ("there is no a Champaign
county") raised before any insertion.  Modelled from the spec where the
sources are missing: the `county` struct's ID field is the document's
`_id`, and the inserted `model.CRules{AppVersion, CountyID, Data}` document
is stored with fields `app_version`, `county_id` and `data`. -/
def seedCRules (env : Env) (countiesColl : Coll) (c : Coll) : CollStep :=
  match findOne countiesColl champaignFilter with
  | none => (Except.error DbError.noChampaignCounty, c)
  | some champaignCounty =>
    let countyID := (Doc.get champaignCounty "_id").getD ""
    let items := findDocs c [("app_version", "2.6"), ("county_id", countyID)]
    if items.length ≤ 0 then
      match readFile env rulesSeedFile with
      | none => (Except.error (DbError.fileNotFound rulesSeedFile), c)
      | some data =>
        match insertOne "crules" c
            [("app_version", "2.6"), ("county_id", countyID), ("data", data)] with
        | Except.ok c2 => (Except.ok (), c2)
        | Except.error e => (Except.error e, c)
    else
      (Except.ok (), c)

/-- database.go:555-587: seed the two default symptom groups when the
collection holds no data.  Modelled from the spec where the sources are
missing: the inserted `symptomGroup{ID, Name}` documents are stored with
fields `id` and `name`. -/
def seedSymptomGroups (env : Env) (c : Coll) : CollStep :=
  let result := findDocs c []
  if result.length > 0 then
    (Except.ok (), c)
  else
    match insertOne "symptomgroups" c [("id", env.uuid1), ("name", "gr1")] with
    | Except.error e => (Except.error e, c)
    | Except.ok c1 =>
      match insertOne "symptomgroups" c1 [("id", env.uuid2), ("name", "gr2")] with
      | Except.error e => (Except.error e, c1)
      | Except.ok c2 => (Except.ok (), c2)

/-- database.go:244: `applyConfigsChecks` performs no operation. -/
def applyConfigsChecks (st : Store) : Except DbError Unit × Store :=
  (Except.ok (), st)

/-- database.go:251: `applyUsersChecks` adds the unique external_id index
and the shibboleth / uuid / re_post indexes. -/
def applyUsersChecks (st : Store) : Except DbError Unit × Store :=
  let r := (Except.ok (), st.users)
    |> thenIdx "users" ⟨"external_id", 1, true⟩
    |> thenIdx "users" ⟨"shibboleth_auth.uiucedu_uin", 1, false⟩
    |> thenIdx "users" ⟨"uuid", 1, false⟩
    |> thenIdx "users" ⟨"re_post", 1, false⟩
  (r.1, { st with users := r.2 })

/-- database.go:282: `applyProvidersChecks` performs no operation. -/
def applyProvidersChecks (st : Store) : Except DbError Unit × Store :=
  (Except.ok (), st)

/-- database.go:289: `applyLocationsChecks`. -/
def applyLocationsChecks (st : Store) : Except DbError Unit × Store :=
  let r := (Except.ok (), st.locations)
    |> thenIdx "locations" ⟨"provider_id", 1, false⟩
    |> thenIdx "locations" ⟨"county_id", 1, false⟩
  (r.1, { st with locations := r.2 })

/-- database.go:306: `applyCTestsChecks`. -/
def applyCTestsChecks (st : Store) : Except DbError Unit × Store :=
  let r := (Except.ok (), st.ctests)
    |> thenIdx "ctests" ⟨"user_id", 1, false⟩
    |> thenIdx "ctests" ⟨"provider_id", 1, false⟩
    |> thenIdx "ctests" ⟨"order_number", 1, false⟩
  (r.1, { st with ctests := r.2 })

/-- database.go:327: `applyManualTestsChecks`. -/
def applyManualTestsChecks (st : Store) : Except DbError Unit × Store :=
  let r := (Except.ok (), st.manualtests)
    |> thenIdx "manualtests" ⟨"user_id", 1, false⟩
    |> thenIdx "manualtests" ⟨"location_id", 1, false⟩
    |> thenIdx "manualtests" ⟨"county_id", 1, false⟩
    |> thenIdx "manualtests" ⟨"status", 1, false⟩
  (r.1, { st with manualtests := r.2 })

/-- database.go:352: `applyEManualTestsChecks`: four lookup indexes, then
the unconditional prune of verified manual tests. -/
def applyEManualTestsChecks (st : Store) : Except DbError Unit × Store :=
  let r := (Except.ok (), st.emanualtests)
    |> thenIdx "emanualtests" ⟨"user_id", 1, false⟩
    |> thenIdx "emanualtests" ⟨"location_id", 1, false⟩
    |> thenIdx "emanualtests" ⟨"county_id", 1, false⟩
    |> thenIdx "emanualtests" ⟨"status", 1, false⟩
    |> thenDo pruneVerified
  (r.1, { st with emanualtests := r.2 })

/-- database.go:400: `applyResourcesChecks` performs no operation. -/
def applyResourcesChecks (st : Store) : Except DbError Unit × Store :=
  (Except.ok (), st)

/-- database.go:407: `applyFAQChecks` performs no operation. -/
def applyFAQChecks (st : Store) : Except DbError Unit × Store :=
  (Except.ok (), st)

/-- database.go:414: `applyNewsChecks`. -/
def applyNewsChecks (st : Store) : Except DbError Unit × Store :=
  let r := (Except.ok (), st.news)
    |> thenIdx "news" ⟨"date", 1, false⟩
  (r.1, { st with news := r.2 })

/-- database.go:427: `applyStatusChecks` adds the unique user_id index. -/
def applyStatusChecks (st : Store) : Except DbError Unit × Store :=
  let r := (Except.ok (), st.status)
    |> thenIdx "status" ⟨"user_id", 1, true⟩
  (r.1, { st with status := r.2 })

/-- database.go:440: `applyEStatusChecks`. -/
def applyEStatusChecks (st : Store) : Except DbError Unit × Store :=
  let r := (Except.ok (), st.estatus)
    |> thenIdx "estatus" ⟨"user_id", 1, false⟩
    |> thenIdx "estatus" ⟨"app_version", 1, false⟩
  (r.1, { st with estatus := r.2 })

/-- database.go:459: `applyHistoryChecks`. -/
def applyHistoryChecks (st : Store) : Except DbError Unit × Store :=
  let r := (Except.ok (), st.history)
    |> thenIdx "history" ⟨"user_id", 1, false⟩
    |> thenIdx "history" ⟨"date", 1, false⟩
  (r.1, { st with history := r.2 })

/-- database.go:478: `applyEHistoryChecks`. -/
def applyEHistoryChecks (st : Store) : Except DbError Unit × Store :=
  let r := (Except.ok (), st.ehistory)
    |> thenIdx "ehistory" ⟨"user_id", 1, false⟩
    |> thenIdx "ehistory" ⟨"date", 1, false⟩
  (r.1, { st with ehistory := r.2 })

/-- database.go:497: `applyCountiesChecks`. -/
def applyCountiesChecks (st : Store) : Except DbError Unit × Store :=
  let r := (Except.ok (), st.counties)
    |> thenIdx "counties" ⟨"guidelines.id", 1, false⟩
    |> thenIdx "counties" ⟨"county_statuses.id", 1, false⟩
  (r.1, { st with counties := r.2 })

/-- database.go:516: `applyTestTypesChecks`. -/
def applyTestTypesChecks (st : Store) : Except DbError Unit × Store :=
  let r := (Except.ok (), st.testtypes)
    |> thenIdx "testtypes" ⟨"results._id", 1, false⟩
  (r.1, { st with testtypes := r.2 })

/-- database.go:529: `applyRulesChecks`. -/
def applyRulesChecks (st : Store) : Except DbError Unit × Store :=
  let r := (Except.ok (), st.rules)
    |> thenIdx "rules" ⟨"county_id", 1, false⟩
    |> thenIdx "rules" ⟨"test_type_id", 1, false⟩
  (r.1, { st with rules := r.2 })

/-- database.go:546: `applySymptomGroupsChecks`: one index, then the
default symptom-group seeding. -/
def applySymptomGroupsChecks (env : Env) (st : Store) : Except DbError Unit × Store :=
  let r := (Except.ok (), st.symptomgroups)
    |> thenIdx "symptomgroups" ⟨"symptoms.id", 1, false⟩
    |> thenDo (seedSymptomGroups env)
  (r.1, { st with symptomgroups := r.2 })

/-- database.go:593: `applySymptomRulesChecks` adds the unique county_id
index. -/
def applySymptomRulesChecks (st : Store) : Except DbError Unit × Store :=
  let r := (Except.ok (), st.symptomrules)
    |> thenIdx "symptomrules" ⟨"county_id", 1, true⟩
  (r.1, { st with symptomrules := r.2 })

/-- database.go:606: `applySymptomsChecks`: the app_version index, then the
version-2.6 seeding. -/
def applySymptomsChecks (env : Env) (st : Store) : Except DbError Unit × Store :=
  let r := (Except.ok (), st.symptoms)
    |> thenIdx "symptoms" ⟨"app_version", 1, false⟩
    |> thenDo (seedSymptoms env)
  (r.1, { st with symptoms := r.2 })

/-- database.go:642: `applyCRulesChecks(cRules, counties)`: two indexes on
crules, then the region-scoped rule seeding, which resolves the Champaign
county in the counties collection first. -/
def applyCRulesChecks (env : Env) (st : Store) : Except DbError Unit × Store :=
  let r := (Except.ok (), st.crules)
    |> thenIdx "crules" ⟨"app_version", 1, false⟩
    |> thenIdx "crules" ⟨"county_id", 1, false⟩
    |> thenDo (seedCRules env st.counties)
  (r.1, { st with crules := r.2 })

/-- database.go:695: `applyTraceExposuresChecks`. -/
def applyTraceExposuresChecks (st : Store) : Except DbError Unit × Store :=
  let r := (Except.ok (), st.traceexposures)
    |> thenIdx "traceexposures" ⟨"date_added", 1, false⟩
    |> thenIdx "traceexposures" ⟨"timestamp", 1, false⟩
  (r.1, { st with traceexposures := r.2 })

/-- database.go:714: `applyAccessRulesChecks` adds the unique county_id
index. -/
def applyAccessRulesChecks (st : Store) : Except DbError Unit × Store :=
  let r := (Except.ok (), st.accessrules)
    |> thenIdx "accessrules" ⟨"county_id", 1, true⟩
  (r.1, { st with accessrules := r.2 })

/-- database.go:727: `applyUINOverridesChecks` adds the unique uin index
and the category index. -/
def applyUINOverridesChecks (st : Store) : Except DbError Unit × Store :=
  let r := (Except.ok (), st.uinoverrides)
    |> thenIdx "uinoverrides" ⟨"uin", 1, true⟩
    |> thenIdx "uinoverrides" ⟨"category", 1, false⟩
  (r.1, { st with uinoverrides := r.2 })

/-!
## `database.start`

`start` is embedded with a ghost event trace recording, in execution
order: creation of the bounded-timeout contexts for the connect and ping
phases (each built from `context.Background()` with the full
`mongoTimeout`, database.go:74 and 82), phase completion, every
`apply*Checks` call that succeeded, assembly of the handle, and the launch
of the background watch (`go m.configs.Watch(nil)`, database.go:239).  The
watch launch is a spawn event: `start` returns immediately after it.
-/

/-- The configuration fields of the `database` struct (database.go:36). -/
structure DbConfig where
  mongoDBAuth : String
  mongoDBName : String
  mongoTimeout : Nat
deriving DecidableEq, Repr

/-- The mutable fields of the `database` struct assigned by `start`
(database.go:41-64): the db / dbClient handles and the 21 collection
accessor fields, each holding the name of the collection its wrapper
points to once assigned. -/
structure Handle where
  db : Option String
  dbClient : Bool
  configs : Option String
  users : Option String
  providers : Option String
  locations : Option String
  ctests : Option String
  emanualtests : Option String
  resources : Option String
  faq : Option String
  news : Option String
  estatus : Option String
  ehistory : Option String
  counties : Option String
  testtypes : Option String
  rules : Option String
  symptomgroups : Option String
  symptomrules : Option String
  symptoms : Option String
  crules : Option String
  traceexposures : Option String
  accessrules : Option String
  uinoverrides : Option String
deriving DecidableEq, Repr

/-- A freshly constructed `database` value: nothing assigned yet. -/
def Handle.empty : Handle :=
  { db := none, dbClient := false, configs := none, users := none
  , providers := none, locations := none, ctests := none, emanualtests := none
  , resources := none, faq := none, news := none, estatus := none
  , ehistory := none, counties := none, testtypes := none, rules := none
  , symptomgroups := none, symptomrules := none, symptoms := none
  , crules := none, traceexposures := none, accessrules := none
  , uinoverrides := none }

/-- The collection names reachable through the 21 accessor fields of the
handle, in struct declaration order. -/
def Handle.assignedCollections (h : Handle) : List String :=
  [h.configs, h.users, h.providers, h.locations, h.ctests, h.emanualtests,
   h.resources, h.faq, h.news, h.estatus, h.ehistory, h.counties,
   h.testtypes, h.rules, h.symptomgroups, h.symptomrules, h.symptoms,
   h.crules, h.traceexposures, h.accessrules, h.uinoverrides].filterMap id

/-- database.go:212-236: assign db, dbClient and every collection accessor
field. -/
def assembleHandle (cfg : DbConfig) : Handle :=
  { db := some cfg.mongoDBName, dbClient := true
  , configs := some "configs", users := some "users"
  , providers := some "providers", locations := some "locations"
  , ctests := some "ctests", emanualtests := some "emanualtests"
  , resources := some "resources", faq := some "faq", news := some "news"
  , estatus := some "estatus", ehistory := some "ehistory"
  , counties := some "counties", testtypes := some "testtypes"
  , rules := some "rules", symptomgroups := some "symptomgroups"
  , symptomrules := some "symptomrules", symptoms := some "symptoms"
  , crules := some "crules", traceexposures := some "traceexposures"
  , accessrules := some "accessrules", uinoverrides := some "uinoverrides" }

/-- Ghost events of one `start` run, in execution order. -/
inductive Ev where
  | ctx (phase : String) (dur : Nat)
  | connected
  | pinged
  | check (coll : String)
  | assembled
  | watch (coll : String)
deriving DecidableEq, Repr

/-- One per-collection provisioning step as scheduled by `start`. -/
abbrev CheckFn := Store → Except DbError Unit × Store

/-- The 24 `apply*Checks` calls of `start`, in source order
(database.go:91-210). -/
def checksList (env : Env) : List (String × CheckFn) :=
  [("configs", applyConfigsChecks), ("users", applyUsersChecks),
   ("providers", applyProvidersChecks), ("locations", applyLocationsChecks),
   ("ctests", applyCTestsChecks), ("manualtests", applyManualTestsChecks),
   ("emanualtests", applyEManualTestsChecks),
   ("resources", applyResourcesChecks), ("faq", applyFAQChecks),
   ("news", applyNewsChecks), ("status", applyStatusChecks),
   ("estatus", applyEStatusChecks), ("history", applyHistoryChecks),
   ("ehistory", applyEHistoryChecks), ("counties", applyCountiesChecks),
   ("testtypes", applyTestTypesChecks), ("rules", applyRulesChecks),
   ("symptomgroups", applySymptomGroupsChecks env),
   ("symptomrules", applySymptomRulesChecks),
   ("symptoms", applySymptomsChecks env), ("crules", applyCRulesChecks env),
   ("traceexposures", applyTraceExposuresChecks),
   ("accessrules", applyAccessRulesChecks),
   ("uinoverrides", applyUINOverridesChecks)]

/-- The 24 collection names in check order. -/
def checkNames : List String :=
  ["configs", "users", "providers", "locations", "ctests", "manualtests",
   "emanualtests", "resources", "faq", "news", "status", "estatus",
   "history", "ehistory", "counties", "testtypes", "rules",
   "symptomgroups", "symptomrules", "symptoms", "crules",
   "traceexposures", "accessrules", "uinoverrides"]

/-- Run the provisioning checks in order, stopping at the first error, and
record a `check` event per completed check. -/
def runChecks (cs : List (String × CheckFn)) (st : Store) (tr : List Ev) :
    Option DbError × Store × List Ev :=
  match cs with
  | [] => (none, st, tr)
  | (nm, f) :: rest =>
    match f st with
    | (Except.ok _, st2) => runChecks rest st2 (tr ++ [Ev.check nm])
    | (Except.error e, st2) => (some e, st2, tr)

/-- Outcome of one `start` run: the returned error (if any), the handle
fields after the run, the store after the run, and the ghost trace. -/
structure StartResult where
  err : Option DbError
  handle : Handle
  store : Store
  trace : List Ev
deriving DecidableEq, Repr

/-- `database.start` (database.go:69): connect with a fresh
`mongoTimeout`-bounded context, ping with another fresh
`mongoTimeout`-bounded context, run the 24 provisioning checks in order,
assign the handle, then spawn the background watch on the configs
collection.  Any failure returns that error at once, leaving the handle
untouched. -/
def start (cfg : DbConfig) (env : Env) (h : Handle) (st : Store) : StartResult :=
  let trConnect := [Ev.ctx "connect" cfg.mongoTimeout]
  if env.connectErr then
    { err := some DbError.connectFailed, handle := h, store := st, trace := trConnect }
  else
    let trPing := trConnect ++ [Ev.connected, Ev.ctx "ping" cfg.mongoTimeout]
    if env.pingErr then
      { err := some DbError.pingFailed, handle := h, store := st, trace := trPing }
    else
      match runChecks (checksList env) st (trPing ++ [Ev.pinged]) with
      | (some e, st2, tr2) =>
        { err := some e, handle := h, store := st2, trace := tr2 }
      | (none, st2, tr2) =>
        { err := none, handle := assembleHandle cfg, store := st2
        , trace := tr2 ++ [Ev.assembled, Ev.watch "configs"] }

/-!
## Helper lemmas
-/

theorem addIndex_docs {n : String} {c : Coll} {s : IndexSpec} {c2 : Coll}
    (h : addIndex n c s = Except.ok c2) : c2.docs = c.docs := by
  unfold addIndex at h
  rcases hf : c.idxs.find? (fun i => i.key == s.key) with _ | i
  · rw [hf] at h
    by_cases hu : (s.unique && dupOnKey c.docs s.key) = true
    · simp [hu] at h
    · simp [hu] at h
      rw [← h]
  · rw [hf] at h
    by_cases he : (i == s) = true
    · simp [he] at h
      rw [← h]
    · simp [he] at h

theorem addIndex_stable {n : String} {c c1 : Coll} {s : IndexSpec}
    (h : addIndex n c s = Except.ok c1) (c2 : Coll) (hidx : c2.idxs = c1.idxs) :
    addIndex n c2 s = Except.ok c2 := by
  unfold addIndex at h ⊢
  rcases hf : c.idxs.find? (fun i => i.key == s.key) with _ | i
  · rw [hf] at h
    by_cases hu : (s.unique && dupOnKey c.docs s.key) = true
    · simp [hu] at h
    · simp [hu] at h
      have hidx2 : c2.idxs = c.idxs ++ [s] := by rw [hidx, ← h]
      rw [hidx2, List.find?_append, hf]
      simp
  · rw [hf] at h
    by_cases he : (i == s) = true
    · simp [he] at h
      have hidx2 : c2.idxs = c.idxs := by rw [hidx, ← h]
      rw [hidx2, hf]
      simp [he]
    · simp [he] at h

theorem addIndex_idem {n : String} {c c1 : Coll} {s : IndexSpec}
    (h : addIndex n c s = Except.ok c1) : addIndex n c1 s = Except.ok c1 :=
  addIndex_stable h c1 rfl

theorem insertOne_ok {n : String} {c : Coll} {d : Doc} {c2 : Coll}
    (h : insertOne n c d = Except.ok c2) : c2 = { c with docs := c.docs ++ [d] } := by
  unfold insertOne at h
  by_cases hv : (c.idxs.any (fun i => violatesUnique c.docs i d)) = true
  · simp [hv] at h
  · simp [hv] at h
    rw [h]

theorem thenIdx_docs (n : String) (s : IndexSpec) (r : CollStep) :
    (thenIdx n s r).2.docs = r.2.docs := by
  rcases r with ⟨e, c⟩
  cases e with
  | error err => rfl
  | ok u =>
    simp only [thenIdx]
    rcases h : addIndex n c s with e2 | c2
    · rfl
    · exact addIndex_docs h

theorem thenDo_of_ok {f : Coll → CollStep} {r : CollStep}
    (h : (thenDo f r).1 = Except.ok ()) :
    r.1 = Except.ok () ∧ thenDo f r = f r.2 := by
  rcases r with ⟨e, c⟩
  cases e with
  | error err => simp [thenDo] at h
  | ok u => exact ⟨rfl, rfl⟩

theorem findDocs_congr {c1 c2 : Coll} (h : c1.docs = c2.docs) (f : Query) :
    findDocs c1 f = findDocs c2 f := by
  unfold findDocs
  rw [h]

theorem filter_not_of_filter_nil {α : Type} (p : α → Bool) (l : List α)
    (h : l.filter p = []) : l.filter (fun a => !p a) = l := by
  induction l with
  | nil => rfl
  | cons a t ih =>
    by_cases hp : p a = true
    · simp [List.filter_cons, hp] at h
    · simp only [Bool.not_eq_true] at hp
      rw [List.filter_cons_of_neg (by simp [hp])] at h
      rw [List.filter_cons_of_pos (by simp [hp]), ih h]

theorem filter_filter_not {α : Type} (p : α → Bool) (l : List α) :
    (l.filter (fun a => !p a)).filter p = [] := by
  induction l with
  | nil => rfl
  | cons a t ih =>
    by_cases hp : p a = true
    · simp [List.filter_cons, hp, ih]
    · simp only [Bool.not_eq_true] at hp
      simp [List.filter_cons, hp, ih]

theorem pruneVerified_spec (c : Coll) :
    pruneVerified c = (Except.ok (),
      { c with docs := c.docs.filter (fun d => !matchesFilter d verifiedFilter) }) := by
  unfold pruneVerified
  by_cases h : (findDocs c verifiedFilter).length > 0
  · simp [h, deleteMany]
  · have hnil : findDocs c verifiedFilter = [] := by
      cases hd : findDocs c verifiedFilter with
      | nil => rfl
      | cons a t => rw [hd] at h; simp at h
    have : c.docs.filter (fun d => !matchesFilter d verifiedFilter) = c.docs :=
      filter_not_of_filter_nil _ _ hnil
    simp [h, this]

theorem runChecks_no_watch (cs : List (String × CheckFn)) :
    ∀ (st : Store) (tr : List Ev) (nm : String), Ev.watch nm ∉ tr →
      Ev.watch nm ∉ (runChecks cs st tr).2.2 := by
  induction cs with
  | nil => intro st tr nm h; exact h
  | cons p rest ih =>
    intro st tr nm h
    rcases p with ⟨pn, f⟩
    rcases hf : f st with ⟨r, st2⟩
    cases r with
    | ok u =>
      simp only [runChecks, hf]
      refine ih st2 (tr ++ [Ev.check pn]) nm ?_
      intro hmem
      rcases List.mem_append.mp hmem with hl | hr
      · exact h hl
      · simp at hr
    | error e =>
      simp only [runChecks, hf]
      exact h

theorem runChecks_ok_trace (cs : List (String × CheckFn)) :
    ∀ (st : Store) (tr : List Ev) (st2 : Store) (tr2 : List Ev),
      runChecks cs st tr = (none, st2, tr2) →
      tr2 = tr ++ cs.map (fun p => Ev.check p.1) := by
  induction cs with
  | nil =>
    intro st tr st2 tr2 h
    simp only [runChecks, Prod.mk.injEq] at h
    rw [← h.2.2]
    simp
  | cons p rest ih =>
    intro st tr st2 tr2 h
    rcases p with ⟨pn, f⟩
    rcases hf : f st with ⟨r, stm⟩
    cases r with
    | ok u =>
      simp only [runChecks, hf] at h
      have := ih stm (tr ++ [Ev.check pn]) st2 tr2 h
      simp [this]
    | error e =>
      simp only [runChecks, hf, Prod.mk.injEq] at h
      exact absurd h.1 (by simp)

theorem runChecks_preserve (P : Store → Prop) (cs : List (String × CheckFn))
    (hpres : ∀ p ∈ cs, ∀ s : Store, P s → P (p.2 s).2) :
    ∀ (st : Store) (tr : List Ev), P st → P (runChecks cs st tr).2.1 := by
  induction cs with
  | nil => intro st tr h; exact h
  | cons p rest ih =>
    intro st tr h
    rcases p with ⟨pn, f⟩
    rcases hf : f st with ⟨r, st2⟩
    have h2 : P (f st).2 := hpres ⟨pn, f⟩ (List.mem_cons_self _ _) st h
    rw [hf] at h2
    cases r with
    | ok u =>
      simp only [runChecks, hf]
      exact ih (fun q hq => hpres q (List.mem_cons_of_mem _ hq)) st2 (tr ++ [Ev.check pn]) h2
    | error e =>
      simp only [runChecks, hf]
      exact h2

theorem runChecks_fails (P : Store → Prop) (cs : List (String × CheckFn))
    (hpres : ∀ p ∈ cs, ∀ s : Store, P s → P (p.2 s).2)
    (hbad : ∃ p ∈ cs, ∀ s : Store, P s → ∃ e, (p.2 s).1 = Except.error e) :
    ∀ (st : Store) (tr : List Ev), P st → ∃ e, (runChecks cs st tr).1 = some e := by
  induction cs with
  | nil =>
    intro st tr h
    rcases hbad with ⟨p, hp, _⟩
    simp at hp
  | cons p rest ih =>
    intro st tr h
    rcases p with ⟨pn, f⟩
    rcases hf : f st with ⟨r, st2⟩
    cases r with
    | error e =>
      refine ⟨e, ?_⟩
      simp only [runChecks, hf]
    | ok u =>
      simp only [runChecks, hf]
      rcases hbad with ⟨q, hq, hqe⟩
      rcases List.mem_cons.mp hq with heq | hqr
      · exfalso
        rcases hqe st h with ⟨e, he⟩
        rw [heq] at he
        have he2 : (f st).1 = Except.error e := he
        rw [hf] at he2
        simp at he2
      · have h2 : P (f st).2 := hpres ⟨pn, f⟩ (List.mem_cons_self _ _) st h
        rw [hf] at h2
        exact ih (fun q2 hq2 => hpres q2 (List.mem_cons_of_mem _ hq2)) ⟨q, hqr, hqe⟩ st2 _ h2

theorem findOne_of_nil {cc : Coll} {f : Query} (h : findDocs cc f = []) :
    findOne cc f = none := by
  simp [findOne, h]

theorem seedCRules_absent (env : Env) (cc : Coll) (c : Coll)
    (hone : findOne cc champaignFilter = none) :
    seedCRules env cc c = (Except.error DbError.noChampaignCounty, c) := by
  simp [seedCRules, hone]

theorem thenDo_seedCRules_absent (env : Env) (cc : Coll) (r : CollStep)
    (hone : findOne cc champaignFilter = none) :
    (∃ e, (thenDo (seedCRules env cc) r).1 = Except.error e)
    ∧ ((thenDo (seedCRules env cc) r).2).docs = r.2.docs := by
  rcases r with ⟨e, c⟩
  cases e with
  | error err => exact ⟨⟨err, rfl⟩, rfl⟩
  | ok u =>
    cases u
    have hs := seedCRules_absent env cc c hone
    constructor
    · exact ⟨DbError.noChampaignCounty, by simp [thenDo, hs]⟩
    · simp [thenDo, hs]

theorem applyCountiesChecks_counties_docs (s : Store) :
    ((applyCountiesChecks s).2).counties.docs = s.counties.docs := by
  have h : ((applyCountiesChecks s).2).counties
      = (thenIdx "counties" ⟨"county_statuses.id", 1, false⟩
          (thenIdx "counties" ⟨"guidelines.id", 1, false⟩
            (Except.ok (), s.counties))).2 := rfl
  rw [h, thenIdx_docs, thenIdx_docs]

theorem applyCRulesChecks_absent (env : Env) (s : Store)
    (habs : findDocs s.counties champaignFilter = []) :
    (∃ e, (applyCRulesChecks env s).1 = Except.error e)
    ∧ ((applyCRulesChecks env s).2).crules.docs = s.crules.docs
    ∧ ((applyCRulesChecks env s).2).counties = s.counties := by
  have hone : findOne s.counties champaignFilter = none := findOne_of_nil habs
  have hmain := thenDo_seedCRules_absent env s.counties
      (thenIdx "crules" ⟨"county_id", 1, false⟩
        (thenIdx "crules" ⟨"app_version", 1, false⟩ (Except.ok (), s.crules))) hone
  refine ⟨hmain.1, ?_, rfl⟩
  have h : ((applyCRulesChecks env s).2).crules.docs
      = ((thenDo (seedCRules env s.counties)
          (thenIdx "crules" ⟨"county_id", 1, false⟩
            (thenIdx "crules" ⟨"app_version", 1, false⟩
              (Except.ok (), s.crules)))).2).docs := rfl
  rw [h, hmain.2, thenIdx_docs, thenIdx_docs]

/-!
## Concrete fixtures
-/

/-- A representative configuration. -/
def cfg0 : DbConfig :=
  { mongoDBAuth := "mongodb://localhost:27017", mongoDBName := "health"
  , mongoTimeout := 500 }

/-- Benign environment: connect and ping succeed, both seed files are
readable, uuid generation yields fresh identifiers. -/
def env0 : Env :=
  { connectErr := false, pingErr := false
  , files := [(symptomsSeedFile, "symptoms-2.6-payload"),
              (rulesSeedFile, "rules-2.6-payload")]
  , uuid1 := "c0e73657-0001-4000-8000-000000000001"
  , uuid2 := "c0e73657-0002-4000-8000-000000000002" }

/-- Environment whose connect phase fails. -/
def envConnectFail : Env := { env0 with connectErr := true }

/-- Environment whose ping phase fails. -/
def envPingFail : Env := { env0 with pingErr := true }

/-- A counties document for the Champaign county. -/
def champaignDoc : Doc := [("_id", "county-champaign"), ("name", "Champaign")]

/-- A store satisfying every precondition of a successful bootstrap: the
Champaign county document is present, everything else is fresh. -/
def storeChampaign : Store :=
  { emptyStore with counties := { docs := [champaignDoc], idxs := [] } }

/-- Eight ephemeral manual-test documents: five in the terminal (verified)
status and three in non-terminal statuses. -/
def eManualSeed : List Doc :=
  [[("status", "verified"), ("k", "1")], [("status", "verified"), ("k", "2")],
   [("status", "pending"), ("k", "3")], [("status", "verified"), ("k", "4")],
   [("status", "unverified"), ("k", "5")], [("status", "verified"), ("k", "6")],
   [("status", "rejected"), ("k", "7")], [("status", "verified"), ("k", "8")]]

/-- Store whose emanualtests collection holds `eManualSeed`. -/
def storeEManual : Store :=
  { emptyStore with emanualtests := { docs := eManualSeed, idxs := [] } }

/-- Unfolds `start` for a run where connect and ping both succeed. -/
theorem start_run (cfg : DbConfig) (env : Env) (h : Handle) (st : Store)
    (hc : env.connectErr = false) (hp : env.pingErr = false) :
    start cfg env h st =
      (match runChecks (checksList env) st
          [Ev.ctx "connect" cfg.mongoTimeout, Ev.connected,
           Ev.ctx "ping" cfg.mongoTimeout, Ev.pinged] with
       | (some e, st2, tr2) =>
         { err := some e, handle := h, store := st2, trace := tr2 }
       | (none, st2, tr2) =>
         { err := none, handle := assembleHandle cfg, store := st2
         , trace := tr2 ++ [Ev.assembled, Ev.watch "configs"] }) := by
  simp [start, hc, hp]

/-!
## Claims about `start`
-/

/-- C1: whenever any step of `start` fails (connect, ping, or one of the
per-collection checks), `start` returns that error with the database
handle unchanged — db, dbClient and every collection accessor field keep
their previous (unassigned) values — and the background watch is never
launched. -/
theorem start_error_no_partial_handle (cfg : DbConfig) (env : Env) (h : Handle)
    (st : Store) (e : DbError) (herr : (start cfg env h st).err = some e) :
    (start cfg env h st).handle = h
    ∧ ∀ nm : String, Ev.watch nm ∉ (start cfg env h st).trace := by
  by_cases hc : env.connectErr = true
  · refine ⟨by simp [start, hc], ?_⟩
    intro nm
    simp [start, hc]
  · simp only [Bool.not_eq_true] at hc
    by_cases hp : env.pingErr = true
    · refine ⟨by simp [start, hc, hp], ?_⟩
      intro nm
      simp [start, hc, hp]
    · simp only [Bool.not_eq_true] at hp
      rw [start_run cfg env h st hc hp] at herr ⊢
      rcases hrc : runChecks (checksList env) st
          [Ev.ctx "connect" cfg.mongoTimeout, Ev.connected,
           Ev.ctx "ping" cfg.mongoTimeout, Ev.pinged] with ⟨oe, st2, tr2⟩
      cases oe with
      | none =>
        rw [hrc] at herr
        exact Option.noConfusion herr
      | some e2 =>
        refine ⟨rfl, ?_⟩
        intro nm
        have hw := runChecks_no_watch (checksList env) st
            [Ev.ctx "connect" cfg.mongoTimeout, Ev.connected,
             Ev.ctx "ping" cfg.mongoTimeout, Ev.pinged] nm (by simp)
        rw [hrc] at hw
        simpa using hw

/-- Witness for C1: a run whose connect phase fails leaves the empty handle
empty and never launches the watch. -/
theorem start_error_no_partial_handle_witness :
    (start cfg0 envConnectFail Handle.empty emptyStore).handle = Handle.empty
    ∧ ∀ nm : String,
        Ev.watch nm ∉ (start cfg0 envConnectFail Handle.empty emptyStore).trace :=
  start_error_no_partial_handle cfg0 envConnectFail Handle.empty emptyStore
    DbError.connectFailed rfl

/-- C7: the connect phase and the ping phase each receive their own fresh
bounded context of the full `mongoTimeout` duration (the ping deadline is
not the remainder of the connect deadline), and when either phase fails,
`start` returns that error immediately: the store is untouched (no
collection is reached) and the handle is unchanged. -/
theorem start_phase_deadlines (cfg : DbConfig) (env : Env) (h : Handle)
    (st : Store) (hfail : env.connectErr = true ∨ env.pingErr = true) :
    (start cfg env h st).err
        = some (cond env.connectErr DbError.connectFailed DbError.pingFailed)
    ∧ (start cfg env h st).store = st
    ∧ (start cfg env h st).handle = h
    ∧ (start cfg env h st).trace
        = cond env.connectErr [Ev.ctx "connect" cfg.mongoTimeout]
            [Ev.ctx "connect" cfg.mongoTimeout, Ev.connected,
             Ev.ctx "ping" cfg.mongoTimeout] := by
  by_cases hc : env.connectErr = true
  · simp [start, hc]
  · simp only [Bool.not_eq_true] at hc
    rcases hfail with h1 | hp
    · exact absurd h1 (by simp [hc])
    · simp [start, hc, hp]

/-- Witness for C7: with a failing ping phase, both phase contexts carry
the full 500 timeout, the store and handle are untouched, and the ping
error is returned. -/
theorem start_phase_deadlines_witness :
    (start cfg0 envPingFail Handle.empty emptyStore).err = some DbError.pingFailed
    ∧ (start cfg0 envPingFail Handle.empty emptyStore).store = emptyStore
    ∧ (start cfg0 envPingFail Handle.empty emptyStore).handle = Handle.empty
    ∧ (start cfg0 envPingFail Handle.empty emptyStore).trace
        = [Ev.ctx "connect" 500, Ev.connected, Ev.ctx "ping" 500] :=
  start_phase_deadlines cfg0 envPingFail Handle.empty emptyStore (Or.inr rfl)

/-- C8: in every successful run of `start`, the change-feed watch on the
configs collection is launched strictly after all 24 provisioning checks
have passed and after the handle has been fully assembled; `start` then
returns nil, the watch being a spawned background task (last trace
event). -/
theorem start_watch_after_assembly (cfg : DbConfig) (env : Env) (h : Handle)
    (st : Store) (hok : (start cfg env h st).err = none) :
    (start cfg env h st).trace
      = [Ev.ctx "connect" cfg.mongoTimeout, Ev.connected,
         Ev.ctx "ping" cfg.mongoTimeout, Ev.pinged]
        ++ checkNames.map Ev.check ++ [Ev.assembled, Ev.watch "configs"]
    ∧ (start cfg env h st).handle = assembleHandle cfg := by
  by_cases hc : env.connectErr = true
  · simp [start, hc] at hok
  · simp only [Bool.not_eq_true] at hc
    by_cases hp : env.pingErr = true
    · simp [start, hc, hp] at hok
    · simp only [Bool.not_eq_true] at hp
      rw [start_run cfg env h st hc hp] at hok ⊢
      rcases hrc : runChecks (checksList env) st
          [Ev.ctx "connect" cfg.mongoTimeout, Ev.connected,
           Ev.ctx "ping" cfg.mongoTimeout, Ev.pinged] with ⟨oe, st2, tr2⟩
      cases oe with
      | some e2 =>
        rw [hrc] at hok
        exact Option.noConfusion hok
      | none =>
        refine ⟨?_, rfl⟩
        have htr := runChecks_ok_trace (checksList env) st
            [Ev.ctx "connect" cfg.mongoTimeout, Ev.connected,
             Ev.ctx "ping" cfg.mongoTimeout, Ev.pinged] st2 tr2 hrc
        have hnames : (checksList env).map (fun p => Ev.check p.1)
            = checkNames.map Ev.check := rfl
        show tr2 ++ [Ev.assembled, Ev.watch "configs"] = _
        rw [htr, hnames]

/-- Witness for C8: a fully successful bootstrap produces the complete
trace with the watch launch as the final event after assembly. -/
theorem start_watch_after_assembly_witness :
    (start cfg0 env0 Handle.empty storeChampaign).trace
      = [Ev.ctx "connect" 500, Ev.connected, Ev.ctx "ping" 500, Ev.pinged]
        ++ checkNames.map Ev.check ++ [Ev.assembled, Ev.watch "configs"]
    ∧ (start cfg0 env0 Handle.empty storeChampaign).handle = assembleHandle cfg0 :=
  start_watch_after_assembly cfg0 env0 Handle.empty storeChampaign rfl

/-- The 21 collection names reachable through the storage facade after a
successful bootstrap, in struct declaration order. -/
def exposedCollections : List String :=
  ["configs", "users", "providers", "locations", "ctests", "emanualtests",
   "resources", "faq", "news", "estatus", "ehistory", "counties",
   "testtypes", "rules", "symptomgroups", "symptomrules", "symptoms",
   "crules", "traceexposures", "accessrules", "uinoverrides"]

/-- C10: after a successful `start`, the handle exposes exactly the 21
collection accessor fields declared on the database struct; the
manualtests, status and history collections are provisioned during the run
(their checks execute and succeed) but no accessor field is assigned to
them, leaving them unreachable through the storage facade. -/
theorem handle_exposes_21_collections (cfg : DbConfig) (env : Env) (h : Handle)
    (st : Store) (hok : (start cfg env h st).err = none) :
    Handle.assignedCollections (start cfg env h st).handle = exposedCollections
    ∧ Ev.check "manualtests" ∈ (start cfg env h st).trace
    ∧ Ev.check "status" ∈ (start cfg env h st).trace
    ∧ Ev.check "history" ∈ (start cfg env h st).trace
    ∧ "manualtests" ∉ Handle.assignedCollections (start cfg env h st).handle
    ∧ "status" ∉ Handle.assignedCollections (start cfg env h st).handle
    ∧ "history" ∉ Handle.assignedCollections (start cfg env h st).handle := by
  by_cases hc : env.connectErr = true
  · simp [start, hc] at hok
  · simp only [Bool.not_eq_true] at hc
    by_cases hp : env.pingErr = true
    · simp [start, hc, hp] at hok
    · simp only [Bool.not_eq_true] at hp
      rw [start_run cfg env h st hc hp] at hok ⊢
      rcases hrc : runChecks (checksList env) st
          [Ev.ctx "connect" cfg.mongoTimeout, Ev.connected,
           Ev.ctx "ping" cfg.mongoTimeout, Ev.pinged] with ⟨oe, st2, tr2⟩
      cases oe with
      | some e2 =>
        rw [hrc] at hok
        exact Option.noConfusion hok
      | none =>
        have htr := runChecks_ok_trace (checksList env) st
            [Ev.ctx "connect" cfg.mongoTimeout, Ev.connected,
             Ev.ctx "ping" cfg.mongoTimeout, Ev.pinged] st2 tr2 hrc
        have hnames : (checksList env).map (fun p => Ev.check p.1)
            = checkNames.map Ev.check := rfl
        rw [hnames] at htr
        refine ⟨rfl, ?_, ?_, ?_,
          (by decide : "manualtests" ∉ exposedCollections),
          (by decide : "status" ∉ exposedCollections),
          (by decide : "history" ∉ exposedCollections)⟩
        · show Ev.check "manualtests" ∈ tr2 ++ [Ev.assembled, Ev.watch "configs"]
          rw [htr]
          simp [checkNames]
        · show Ev.check "status" ∈ tr2 ++ [Ev.assembled, Ev.watch "configs"]
          rw [htr]
          simp [checkNames]
        · show Ev.check "history" ∈ tr2 ++ [Ev.assembled, Ev.watch "configs"]
          rw [htr]
          simp [checkNames]

/-- Witness for C10: the successful bootstrap exposes the 21 accessor
collections and ran (only ghost-traced) checks for the three unexposed
collections. -/
theorem handle_exposes_21_collections_witness :
    Handle.assignedCollections (start cfg0 env0 Handle.empty storeChampaign).handle
      = exposedCollections
    ∧ Ev.check "manualtests" ∈ (start cfg0 env0 Handle.empty storeChampaign).trace
    ∧ Ev.check "status" ∈ (start cfg0 env0 Handle.empty storeChampaign).trace
    ∧ Ev.check "history" ∈ (start cfg0 env0 Handle.empty storeChampaign).trace
    ∧ "manualtests" ∉
        Handle.assignedCollections (start cfg0 env0 Handle.empty storeChampaign).handle
    ∧ "status" ∉
        Handle.assignedCollections (start cfg0 env0 Handle.empty storeChampaign).handle
    ∧ "history" ∉
        Handle.assignedCollections (start cfg0 env0 Handle.empty storeChampaign).handle :=
  handle_exposes_21_collections cfg0 env0 Handle.empty storeChampaign rfl

/-!
## C3: region-scoped rule seeding requires the Champaign county
-/

/-- C3: whenever the counties collection holds no document named
"Champaign", `applyCRulesChecks` returns an error without inserting any
CRules document (the crules documents are unchanged), and consequently
`start` on such a store returns an error with the crules documents
likewise unchanged. -/
theorem applyCRulesChecks_requires_champaign (cfg : DbConfig) (env : Env)
    (h : Handle) (st : Store)
    (habs : findDocs st.counties champaignFilter = []) :
    (∃ e, (applyCRulesChecks env st).1 = Except.error e)
    ∧ ((applyCRulesChecks env st).2).crules.docs = st.crules.docs
    ∧ (∃ e2, (start cfg env h st).err = some e2)
    ∧ ((start cfg env h st).store).crules.docs = st.crules.docs := by
  have habs2 := applyCRulesChecks_absent env st habs
  have hpres : ∀ p ∈ checksList env, ∀ s : Store,
      (findDocs s.counties champaignFilter = [] ∧ s.crules.docs = st.crules.docs) →
      (findDocs (p.2 s).2.counties champaignFilter = []
        ∧ (p.2 s).2.crules.docs = st.crules.docs) := by
    intro p hp
    simp only [checksList, List.mem_cons, List.not_mem_nil, or_false] at hp
    rcases hp with rfl|rfl|rfl|rfl|rfl|rfl|rfl|rfl|rfl|rfl|rfl|rfl|rfl|rfl|hp2
    · exact fun s hs => hs
    · exact fun s hs => hs
    · exact fun s hs => hs
    · exact fun s hs => hs
    · exact fun s hs => hs
    · exact fun s hs => hs
    · exact fun s hs => hs
    · exact fun s hs => hs
    · exact fun s hs => hs
    · exact fun s hs => hs
    · exact fun s hs => hs
    · exact fun s hs => hs
    · exact fun s hs => hs
    · exact fun s hs => hs
    rcases hp2 with rfl|rfl|rfl|rfl|rfl|rfl|rfl|rfl|rfl|rfl
    · intro s hs
      exact ⟨(findDocs_congr (applyCountiesChecks_counties_docs s) champaignFilter).trans hs.1,
             hs.2⟩
    · exact fun s hs => hs
    · exact fun s hs => hs
    · exact fun s hs => hs
    · exact fun s hs => hs
    · exact fun s hs => hs
    · intro s hs
      exact ⟨hs.1, ((applyCRulesChecks_absent env s hs.1).2.1).trans hs.2⟩
    · exact fun s hs => hs
    · exact fun s hs => hs
    · exact fun s hs => hs
  have hbad : ∃ p ∈ checksList env, ∀ s : Store,
      (findDocs s.counties champaignFilter = [] ∧ s.crules.docs = st.crules.docs) →
      ∃ e, (p.2 s).1 = Except.error e := by
    refine ⟨("crules", applyCRulesChecks env), ?_, ?_⟩
    · simp [checksList]
    · intro s hs
      exact (applyCRulesChecks_absent env s hs.1).1
  refine ⟨habs2.1, habs2.2.1, ?_⟩
  by_cases hc : env.connectErr = true
  · exact ⟨⟨DbError.connectFailed, by simp [start, hc]⟩, by simp [start, hc]⟩
  · simp only [Bool.not_eq_true] at hc
    by_cases hp : env.pingErr = true
    · exact ⟨⟨DbError.pingFailed, by simp [start, hc, hp]⟩, by simp [start, hc, hp]⟩
    · simp only [Bool.not_eq_true] at hp
      rw [start_run cfg env h st hc hp]
      have hfail := runChecks_fails
          (fun s => findDocs s.counties champaignFilter = []
            ∧ s.crules.docs = st.crules.docs)
          (checksList env) hpres hbad st
          [Ev.ctx "connect" cfg.mongoTimeout, Ev.connected,
           Ev.ctx "ping" cfg.mongoTimeout, Ev.pinged] ⟨habs, rfl⟩
      have hpre := runChecks_preserve
          (fun s => findDocs s.counties champaignFilter = []
            ∧ s.crules.docs = st.crules.docs)
          (checksList env) hpres st
          [Ev.ctx "connect" cfg.mongoTimeout, Ev.connected,
           Ev.ctx "ping" cfg.mongoTimeout, Ev.pinged] ⟨habs, rfl⟩
      rcases hrc : runChecks (checksList env) st
          [Ev.ctx "connect" cfg.mongoTimeout, Ev.connected,
           Ev.ctx "ping" cfg.mongoTimeout, Ev.pinged] with ⟨oe, st2, tr2⟩
      rw [hrc] at hfail hpre
      rcases hfail with ⟨e2, he2⟩
      have hoe : oe = some e2 := he2
      subst hoe
      exact ⟨⟨e2, rfl⟩, hpre.2⟩

/-- Witness for C3: on the empty store (no Champaign county document),
`applyCRulesChecks` and `start` both fail and the crules collection keeps
its (empty) document list. -/
theorem applyCRulesChecks_requires_champaign_witness :
    (∃ e, (applyCRulesChecks env0 emptyStore).1 = Except.error e)
    ∧ ((applyCRulesChecks env0 emptyStore).2).crules.docs = emptyStore.crules.docs
    ∧ (∃ e2, (start cfg0 env0 Handle.empty emptyStore).err = some e2)
    ∧ ((start cfg0 env0 Handle.empty emptyStore).store).crules.docs
        = emptyStore.crules.docs :=
  applyCRulesChecks_requires_champaign cfg0 env0 Handle.empty emptyStore rfl

/-!
## C5: unconditional, idempotent pruning of verified manual tests
-/

/-- C5: whenever `applyEManualTestsChecks` returns successfully, the
emanualtests collection retains exactly its non-verified documents (in
order, unchanged) and contains no verified document; and the prune step on
a collection with zero verified matches is a no-op returning success. -/
theorem applyEManualTestsChecks_prunes (st : Store)
    (hok : (applyEManualTestsChecks st).1 = Except.ok ()) :
    ((applyEManualTestsChecks st).2).emanualtests.docs
      = st.emanualtests.docs.filter (fun d => !matchesFilter d verifiedFilter)
    ∧ findDocs ((applyEManualTestsChecks st).2).emanualtests verifiedFilter = []
    ∧ ∀ c : Coll, findDocs c verifiedFilter = [] →
        pruneVerified c = (Except.ok (), c) := by
  have hok2 : (thenDo pruneVerified
      (thenIdx "emanualtests" ⟨"status", 1, false⟩
        (thenIdx "emanualtests" ⟨"county_id", 1, false⟩
          (thenIdx "emanualtests" ⟨"location_id", 1, false⟩
            (thenIdx "emanualtests" ⟨"user_id", 1, false⟩
              (Except.ok (), st.emanualtests)))))).1 = Except.ok () := hok
  obtain ⟨h4, heq⟩ := thenDo_of_ok hok2
  have hdocs4 : (thenIdx "emanualtests" ⟨"status", 1, false⟩
      (thenIdx "emanualtests" ⟨"county_id", 1, false⟩
        (thenIdx "emanualtests" ⟨"location_id", 1, false⟩
          (thenIdx "emanualtests" ⟨"user_id", 1, false⟩
            (Except.ok (), st.emanualtests))))).2.docs = st.emanualtests.docs := by
    rw [thenIdx_docs, thenIdx_docs, thenIdx_docs, thenIdx_docs]
  have hres : ((applyEManualTestsChecks st).2).emanualtests
      = (thenDo pruneVerified
          (thenIdx "emanualtests" ⟨"status", 1, false⟩
            (thenIdx "emanualtests" ⟨"county_id", 1, false⟩
              (thenIdx "emanualtests" ⟨"location_id", 1, false⟩
                (thenIdx "emanualtests" ⟨"user_id", 1, false⟩
                  (Except.ok (), st.emanualtests)))))).2 := rfl
  refine ⟨?_, ?_, ?_⟩
  · rw [hres, heq, pruneVerified_spec]
    show (thenIdx "emanualtests" ⟨"status", 1, false⟩
        (thenIdx "emanualtests" ⟨"county_id", 1, false⟩
          (thenIdx "emanualtests" ⟨"location_id", 1, false⟩
            (thenIdx "emanualtests" ⟨"user_id", 1, false⟩
              (Except.ok (), st.emanualtests))))).2.docs.filter
        (fun d => !matchesFilter d verifiedFilter)
      = st.emanualtests.docs.filter (fun d => !matchesFilter d verifiedFilter)
    rw [hdocs4]
  · rw [hres, heq, pruneVerified_spec]
    show ((thenIdx "emanualtests" ⟨"status", 1, false⟩
        (thenIdx "emanualtests" ⟨"county_id", 1, false⟩
          (thenIdx "emanualtests" ⟨"location_id", 1, false⟩
            (thenIdx "emanualtests" ⟨"user_id", 1, false⟩
              (Except.ok (), st.emanualtests))))).2.docs.filter
        (fun d => !matchesFilter d verifiedFilter)).filter
        (fun d => matchesFilter d verifiedFilter) = []
    exact filter_filter_not _ _
  · intro c hc
    simp [pruneVerified, hc]

/-- Witness for C5: on a collection of five verified and three
non-verified documents, the checks succeed, exactly the three non-verified
documents remain, and the zero-match prune is a no-op. -/
theorem applyEManualTestsChecks_prunes_witness :
    ((applyEManualTestsChecks storeEManual).2).emanualtests.docs
      = storeEManual.emanualtests.docs.filter
          (fun d => !matchesFilter d verifiedFilter)
    ∧ findDocs ((applyEManualTestsChecks storeEManual).2).emanualtests
        verifiedFilter = []
    ∧ ∀ c : Coll, findDocs c verifiedFilter = [] →
        pruneVerified c = (Except.ok (), c) :=
  applyEManualTestsChecks_prunes storeEManual rfl

/-!
## C4: at-most-once seeding of the version-2.6 symptoms
-/

/-- The number of symptoms documents for app version 2.6. -/
def symptoms26Count (st : Store) : Nat :=
  (findDocs st.symptoms symptoms26Filter).length

/-- C4: running `applySymptomsChecks` twice in sequence leaves exactly as
many documents matching app_version "2.6" as running it once; starting
from a store with zero such documents, after the first successful run
exactly one such document exists and the second run inserts nothing. -/
theorem applySymptomsChecks_seed_idempotent (env : Env) (st : Store) :
    symptoms26Count (applySymptomsChecks env (applySymptomsChecks env st).2).2
      = symptoms26Count (applySymptomsChecks env st).2
    ∧ (symptoms26Count st = 0 → (applySymptomsChecks env st).1 = Except.ok () →
        symptoms26Count (applySymptomsChecks env st).2 = 1
        ∧ ((applySymptomsChecks env (applySymptomsChecks env st).2).2).symptoms.docs
            = ((applySymptomsChecks env st).2).symptoms.docs) := by
  rcases hidx : addIndex "symptoms" st.symptoms ⟨"app_version", 1, false⟩ with e1 | c1
  · have h1 : applySymptomsChecks env st = (Except.error e1, st) := by
      simp [applySymptomsChecks, thenIdx, thenDo, hidx]
    constructor
    · simp [h1]
    · intro h0 hok
      rw [h1] at hok
      exact absurd hok (by simp)
  · have hdocs1 : c1.docs = st.symptoms.docs := addIndex_docs hidx
    have hidem : addIndex "symptoms" c1 ⟨"app_version", 1, false⟩ = Except.ok c1 :=
      addIndex_idem hidx
    by_cases hz : (findDocs c1 symptoms26Filter).length = 0
    · rcases hfile : readFile env symptomsSeedFile with _ | data
      · have hseed : seedSymptoms env c1
            = (Except.error (DbError.fileNotFound symptomsSeedFile), c1) := by
          simp [seedSymptoms, hz, hfile]
        have h1 : applySymptomsChecks env st
            = (Except.error (DbError.fileNotFound symptomsSeedFile),
               { st with symptoms := c1 }) := by
          simp [applySymptomsChecks, thenIdx, thenDo, hidx, hseed]
        have h2 : applySymptomsChecks env { st with symptoms := c1 }
            = (Except.error (DbError.fileNotFound symptomsSeedFile),
               { st with symptoms := c1 }) := by
          simp [applySymptomsChecks, thenIdx, thenDo, hidem, hseed]
        constructor
        · simp [h1, h2]
        · intro h0 hok
          rw [h1] at hok
          exact absurd hok (by simp)
      · rcases hins : insertOne "symptoms" c1
            [("app_version", "2.6"), ("items", data)] with e2 | c2
        · have hseed : seedSymptoms env c1 = (Except.error e2, c1) := by
            simp [seedSymptoms, hz, hfile, hins]
          have h1 : applySymptomsChecks env st
              = (Except.error e2, { st with symptoms := c1 }) := by
            simp [applySymptomsChecks, thenIdx, thenDo, hidx, hseed]
          have h2 : applySymptomsChecks env { st with symptoms := c1 }
              = (Except.error e2, { st with symptoms := c1 }) := by
            simp [applySymptomsChecks, thenIdx, thenDo, hidem, hseed]
          constructor
          · simp [h1, h2]
          · intro h0 hok
            rw [h1] at hok
            exact absurd hok (by simp)
        · have hc2 : c2 = { c1 with
              docs := c1.docs ++ [[("app_version", "2.6"), ("items", data)]] } :=
            insertOne_ok hins
          have hnil : c1.docs.filter (fun d => matchesFilter d symptoms26Filter)
              = [] := List.length_eq_zero.mp hz
          have hseed : seedSymptoms env c1 = (Except.ok (), c2) := by
            simp [seedSymptoms, hz, hfile, hins]
          have h1 : applySymptomsChecks env st
              = (Except.ok (), { st with symptoms := c2 }) := by
            simp [applySymptomsChecks, thenIdx, thenDo, hidx, hseed]
          have hcount2 : (findDocs c2 symptoms26Filter).length = 1 := by
            rw [hc2]
            show ((c1.docs ++ [[("app_version", "2.6"), ("items", data)]]).filter
                (fun d => matchesFilter d symptoms26Filter)).length = 1
            rw [List.filter_append, hnil]
            rfl
          have hstable : addIndex "symptoms" c2 ⟨"app_version", 1, false⟩
              = Except.ok c2 := addIndex_stable hidx c2 (by rw [hc2])
          have hseed2 : seedSymptoms env c2 = (Except.ok (), c2) := by
            simp [seedSymptoms, hcount2]
          have h2 : applySymptomsChecks env { st with symptoms := c2 }
              = (Except.ok (), { st with symptoms := c2 }) := by
            simp [applySymptomsChecks, thenIdx, thenDo, hstable, hseed2]
          constructor
          · simp [h1, h2]
          · intro h0 hok
            refine ⟨?_, ?_⟩
            · simp [h1, symptoms26Count, hcount2]
            · simp [h1, h2]
    · have hseed : seedSymptoms env c1 = (Except.ok (), c1) := by
        simp [seedSymptoms, Nat.le_zero, hz]
      have h1 : applySymptomsChecks env st
          = (Except.ok (), { st with symptoms := c1 }) := by
        simp [applySymptomsChecks, thenIdx, thenDo, hidx, hseed]
      have h2 : applySymptomsChecks env { st with symptoms := c1 }
          = (Except.ok (), { st with symptoms := c1 }) := by
        simp [applySymptomsChecks, thenIdx, thenDo, hidem, hseed]
      constructor
      · simp [h1, h2]
      · intro h0 hok
        exfalso
        have hzero : (findDocs c1 symptoms26Filter).length = 0 := by
          rw [findDocs_congr hdocs1 symptoms26Filter]
          exact h0
        exact hz hzero

/-- Witness for C4: from the empty store, the first run seeds exactly one
version-2.6 symptoms document, and a second run changes nothing. -/
theorem applySymptomsChecks_seed_idempotent_witness :
    symptoms26Count (applySymptomsChecks env0 (applySymptomsChecks env0 emptyStore).2).2
      = symptoms26Count (applySymptomsChecks env0 emptyStore).2
    ∧ (symptoms26Count (applySymptomsChecks env0 emptyStore).2 = 1
        ∧ ((applySymptomsChecks env0 (applySymptomsChecks env0 emptyStore).2).2).symptoms.docs
            = ((applySymptomsChecks env0 emptyStore).2).symptoms.docs) :=
  ⟨(applySymptomsChecks_seed_idempotent env0 emptyStore).1,
   (applySymptomsChecks_seed_idempotent env0 emptyStore).2 rfl rfl⟩

/-!
## C6: idempotence of index provisioning on a fresh store
-/

/-- Whether one provisioning step returned success. -/
def isOkStep (r : Except DbError Unit × Store) : Bool :=
  match r.1 with
  | Except.ok _ => true
  | Except.error _ => false

/-- Running a check twice from the fresh store yields the same index set
as running it once, and that index set has no duplicate
(field, direction, uniqueness) triples. -/
def idxSetStable (f : CheckFn) (proj : Store → Coll) : Bool :=
  let r1 := f emptyStore
  let r2 := f r1.2
  ((proj r2.2).idxs == (proj r1.2).idxs)
    && ((proj r1.2).idxs.dedup == (proj r1.2).idxs)

/-- Whether the second run of a check from the fresh store succeeds. -/
def secondRunOk (f : CheckFn) : Bool :=
  isOkStep (f (f emptyStore).2)

/-- C6 counterexample: `applyCRulesChecks` is one of the per-collection
apply*Checks routines, yet on a fresh store its second run (like its
first) returns an error, because the Champaign county lookup of its seed
step finds nothing — contradicting the claim that every routine's second
run on a fresh store returns no error. -/
theorem crules_second_run_errors_on_fresh_store :
    (applyCRulesChecks env0 ((applyCRulesChecks env0 emptyStore).2)).1
      = Except.error DbError.noChampaignCounty := rfl

/-- C6 (amended): for every per-collection apply*Checks routine, running
it twice in a row on a fresh store (seed files available) yields the same
index set as running it once, with no duplicate (field, direction,
uniqueness) triples; and for every routine except `applyCRulesChecks` the
second run returns no error — `applyCRulesChecks` fails on both runs since
the fresh store has no Champaign county document for its seed lookup,
though its index set is likewise stable and duplicate-free. -/
theorem index_provisioning_idempotent :
    (idxSetStable applyConfigsChecks Store.configs = true
      ∧ secondRunOk applyConfigsChecks = true)
    ∧ (idxSetStable applyUsersChecks Store.users = true
      ∧ secondRunOk applyUsersChecks = true)
    ∧ (idxSetStable applyProvidersChecks Store.providers = true
      ∧ secondRunOk applyProvidersChecks = true)
    ∧ (idxSetStable applyLocationsChecks Store.locations = true
      ∧ secondRunOk applyLocationsChecks = true)
    ∧ (idxSetStable applyCTestsChecks Store.ctests = true
      ∧ secondRunOk applyCTestsChecks = true)
    ∧ (idxSetStable applyManualTestsChecks Store.manualtests = true
      ∧ secondRunOk applyManualTestsChecks = true)
    ∧ (idxSetStable applyEManualTestsChecks Store.emanualtests = true
      ∧ secondRunOk applyEManualTestsChecks = true)
    ∧ (idxSetStable applyResourcesChecks Store.resources = true
      ∧ secondRunOk applyResourcesChecks = true)
    ∧ (idxSetStable applyFAQChecks Store.faq = true
      ∧ secondRunOk applyFAQChecks = true)
    ∧ (idxSetStable applyNewsChecks Store.news = true
      ∧ secondRunOk applyNewsChecks = true)
    ∧ (idxSetStable applyStatusChecks Store.status = true
      ∧ secondRunOk applyStatusChecks = true)
    ∧ (idxSetStable applyEStatusChecks Store.estatus = true
      ∧ secondRunOk applyEStatusChecks = true)
    ∧ (idxSetStable applyHistoryChecks Store.history = true
      ∧ secondRunOk applyHistoryChecks = true)
    ∧ (idxSetStable applyEHistoryChecks Store.ehistory = true
      ∧ secondRunOk applyEHistoryChecks = true)
    ∧ (idxSetStable applyCountiesChecks Store.counties = true
      ∧ secondRunOk applyCountiesChecks = true)
    ∧ (idxSetStable applyTestTypesChecks Store.testtypes = true
      ∧ secondRunOk applyTestTypesChecks = true)
    ∧ (idxSetStable applyRulesChecks Store.rules = true
      ∧ secondRunOk applyRulesChecks = true)
    ∧ (idxSetStable (applySymptomGroupsChecks env0) Store.symptomgroups = true
      ∧ secondRunOk (applySymptomGroupsChecks env0) = true)
    ∧ (idxSetStable applySymptomRulesChecks Store.symptomrules = true
      ∧ secondRunOk applySymptomRulesChecks = true)
    ∧ (idxSetStable (applySymptomsChecks env0) Store.symptoms = true
      ∧ secondRunOk (applySymptomsChecks env0) = true)
    ∧ (idxSetStable (applyCRulesChecks env0) Store.crules = true
      ∧ secondRunOk (applyCRulesChecks env0) = false)
    ∧ (idxSetStable applyTraceExposuresChecks Store.traceexposures = true
      ∧ secondRunOk applyTraceExposuresChecks = true)
    ∧ (idxSetStable applyAccessRulesChecks Store.accessrules = true
      ∧ secondRunOk applyAccessRulesChecks = true)
    ∧ (idxSetStable applyUINOverridesChecks Store.uinoverrides = true
      ∧ secondRunOk applyUINOverridesChecks = true) := by
  exact ⟨⟨rfl, rfl⟩, ⟨rfl, rfl⟩, ⟨rfl, rfl⟩, ⟨rfl, rfl⟩, ⟨rfl, rfl⟩,
    ⟨rfl, rfl⟩, ⟨rfl, rfl⟩, ⟨rfl, rfl⟩, ⟨rfl, rfl⟩, ⟨rfl, rfl⟩,
    ⟨rfl, rfl⟩, ⟨rfl, rfl⟩, ⟨rfl, rfl⟩, ⟨rfl, rfl⟩, ⟨rfl, rfl⟩,
    ⟨rfl, rfl⟩, ⟨rfl, rfl⟩, ⟨rfl, rfl⟩, ⟨rfl, rfl⟩, ⟨rfl, rfl⟩,
    ⟨rfl, rfl⟩, ⟨rfl, rfl⟩, ⟨rfl, rfl⟩, ⟨rfl, rfl⟩⟩

end HealthStorage
